import Mathlib

/-!
Shallow embedding of the RSVP subsystem of the `wedding_app` repository:

* `src/models/Rsvp.js` — `validateRsvp`, `createRsvpObject`
* `src/services/rsvpService.js` — `getRsvpById`, `updateRsvp`, `deleteRsvp`,
  `getRsvpStats` over a MongoDB collection modelled as an association list
* `src/pages/api/rsvps/[id].js` — the per-id HTTP handler (GET / PUT / DELETE)

JavaScript runtime values that the code can receive are modelled by `JsVal`;
a thrown exception is modelled by `Except Unit`; the current wall-clock time
(`new Date()`) is passed in explicitly as a `Nat` parameter `now`.
-/

/-- The `dietaryRestrictions` sub-object as stored after normalization:
exactly six boolean flags plus the free-text `other` field
(see the schema in `src/models/Rsvp.js`). -/
structure DietaryObj where
  none : Bool
  vegetarian : Bool
  vegan : Bool
  glutenFree : Bool
  nutAllergy : Bool
  shellfishAllergy : Bool
  other : String
deriving DecidableEq, Repr

/-- A JavaScript runtime value, restricted to the shapes that can flow
through this code: `undefined`, `null`, booleans, numbers, strings, `Date`
objects (as a `Nat` timestamp) and the structured dietary sub-object. -/
inductive JsVal where
  | undef
  | null
  | bool (b : Bool)
  | num (n : Int)
  | str (s : String)
  | date (t : Nat)
  | dietary (d : DietaryObj)
deriving DecidableEq, Repr

/-- JavaScript truthiness: `undefined`, `null`, `false`, `0` and `""` are
falsy; every other value (objects and dates in particular) is truthy. -/
def JsVal.truthy : JsVal → Bool
  | .undef => false
  | .null => false
  | .bool b => b
  | .num n => n != 0
  | .str s => !s.isEmpty
  | .date _ => true
  | .dietary _ => true

/-- Test for `typeof v === 'string'`. -/
def JsVal.isStr : JsVal → Bool
  | .str _ => true
  | _ => false

/-- Test for `typeof v === 'boolean'`. -/
def JsVal.isBool : JsVal → Bool
  | .bool _ => true
  | _ => false

/-- The underlying string of a string value; `""` for every other shape
(only consulted after an `isStr` check has succeeded). -/
def JsVal.asStr : JsVal → String
  | .str s => s
  | _ => ""

/-- Trim on character lists: drop whitespace from the front, then from the
back (the back is handled by reversing). -/
def jsTrimList (cs : List Char) : List Char :=
  ((cs.dropWhile Char.isWhitespace).reverse.dropWhile Char.isWhitespace).reverse

/-- Model of JavaScript `String.prototype.trim` (on the ASCII whitespace
that this application manipulates). -/
def jsTrim (s : String) : String :=
  ⟨jsTrimList s.data⟩

/-- Model of JavaScript `String.prototype.toLowerCase` (basic latin
letters, which is all the application relies on). -/
def jsToLower (s : String) : String :=
  ⟨s.data.map Char.toLower⟩

/-- A character admitted by the `[^\s@]` class of the email pattern:
neither whitespace nor `@`. -/
def isEmailChar (c : Char) : Bool :=
  !c.isWhitespace && c != '@'

/-- Decision procedure for the anchored regular expression
`^[^\s@]+@[^\s@]+\.[^\s@]+$` used by `validateRsvp` and `handlePut`:
the string must factor as `local @ rest` where `local` is nonempty without
whitespace or `@`, `rest` has no whitespace or `@`, and `rest` contains a
dot that is neither its first nor its last character. -/
def emailRegexTest (s : String) : Bool :=
  match s.data.findIdx? (fun c => c = '@') with
  | Option.none => false
  | Option.some i =>
    let before := s.data.take i
    let after := s.data.drop (i + 1)
    !before.isEmpty && before.all isEmailChar && after.all isEmailChar &&
      ((after.drop 1).dropLast.contains '.')

/-- Model of `emailRegex.test(v)` on a raw value: `RegExp.test` coerces its
argument to a string, and no coercion of a non-string value in this model
(numbers, booleans, `null`, dates, objects) can contain `@`, so the test
succeeds only on matching strings. -/
def emailTestVal (v : JsVal) : Bool :=
  match v with
  | .str s => emailRegexTest s
  | _ => false

/-- The input to `validateRsvp`/`createRsvpObject`: a raw request body.
Fields that the code reads are listed explicitly; `extra` carries any
unknown additional properties of the body (never read by the code). An
absent field is `JsVal.undef`. The `dietaryRestrictions` property is given
by its seven read fields plus its own `extra`; a nullish or primitive
`dietaryRestrictions` behaves exactly like the all-`undef` sub-object under
the optional-chained accesses the code performs. -/
structure DietaryInput where
  none : JsVal
  vegetarian : JsVal
  vegan : JsVal
  glutenFree : JsVal
  nutAllergy : JsVal
  shellfishAllergy : JsVal
  other : JsVal
  extra : List (String × JsVal)
deriving DecidableEq, Repr

/-- Raw RSVP submission body (see `RsvpInput` field conventions above). -/
structure RsvpInput where
  name : JsVal
  email : JsVal
  phone : JsVal
  attending : JsVal
  guests : JsVal
  guestName : JsVal
  dietaryRestrictions : DietaryInput
  accommodations : JsVal
  accommodationsText : JsVal
  song : JsVal
  message : JsVal
  approved : JsVal
  createdAt : JsVal
  extra : List (String × JsVal)
deriving DecidableEq, Repr

/-- Result shape of `validateRsvp`: `{ isValid, errors }`. -/
structure ValidationResult where
  isValid : Bool
  errors : List String
deriving DecidableEq, Repr

/-- The check `!v || typeof v !== 'string' || !v.trim()` used by
`validateRsvp` for every required text field. -/
def requiredTextMissing (v : JsVal) : Bool :=
  !v.truthy || !v.isStr || (jsTrim v.asStr).isEmpty

/-- Translation of `validateRsvp` (src/models/Rsvp.js, lines 263-333):
errors are pushed into one array in source order, without short-circuiting
between independent checks; the result is valid iff the array stays empty. -/
def validateRsvp (data : RsvpInput) : ValidationResult :=
  let errors : List String := []
  let errors :=
    if requiredTextMissing data.name then errors ++ ["Name is required"] else errors
  let errors :=
    if requiredTextMissing data.email then errors ++ ["Email is required"]
    else if !emailRegexTest data.email.asStr then errors ++ ["Invalid email format"]
    else errors
  let errors :=
    if requiredTextMissing data.phone then errors ++ ["Phone is required"] else errors
  let errors :=
    if !data.attending.isBool then errors ++ ["Attending status is required"] else errors
  let errors :=
    if !data.guests.isBool then errors ++ ["Guests status is required"] else errors
  let errors :=
    if !data.accommodations.isBool then errors ++ ["Accommodations status is required"]
    else errors
  let errors :=
    if data.guests = JsVal.bool true then
      if requiredTextMissing data.guestName then
        errors ++ ["Guest name is required when bringing guests"]
      else errors
    else errors
  let errors :=
    if data.accommodations = JsVal.bool true then
      if requiredTextMissing data.accommodationsText then
        errors ++ ["Accommodation details are required when accommodations are needed"]
      else errors
    else errors
  { isValid := errors.isEmpty, errors := errors }

/-- The normalized RSVP record produced by `createRsvpObject`.
`createdAt` stays a raw value (`data.createdAt || new Date()` keeps
whatever truthy value was supplied); `updatedAt` is always a fresh date. -/
structure Rsvp where
  name : String
  email : String
  phone : String
  attending : Bool
  guests : Bool
  guestName : String
  dietaryRestrictions : DietaryObj
  accommodations : Bool
  accommodationsText : String
  song : String
  message : String
  approved : Bool
  createdAt : JsVal
  updatedAt : Nat
deriving DecidableEq, Repr

/-- Evaluation of `v?.trim() || ''`: nullish short-circuits to `''`,
strings are trimmed, and any other value throws (`.trim` is not a
function on it). -/
def optChainTrim : JsVal → Except Unit String
  | .undef => .ok ""
  | .null => .ok ""
  | .str s => .ok (jsTrim s)
  | _ => .error ()

/-- Evaluation of `v?.toLowerCase().trim() || ''` (the `email` field). -/
def optChainLowerTrim : JsVal → Except Unit String
  | .undef => .ok ""
  | .null => .ok ""
  | .str s => .ok (jsTrim (jsToLower s))
  | _ => .error ()

/-- Translation of `createRsvpObject` (src/models/Rsvp.js, lines 376-413).
The function can throw (modelled by `Except.error ()`) when a field that
the code calls `.trim()`/`.toLowerCase()` on is neither a string nor
nullish; `Boolean(...)` coercions never throw. -/
def createRsvpObject (now : Nat) (data : RsvpInput) : Except Unit Rsvp := do
  let name ← optChainTrim data.name
  let email ← optChainLowerTrim data.email
  let phone ← optChainTrim data.phone
  let guestName ← optChainTrim data.guestName
  let dOther ← optChainTrim data.dietaryRestrictions.other
  let accommodationsText ← optChainTrim data.accommodationsText
  let song ← optChainTrim data.song
  let message ← optChainTrim data.message
  Except.ok
    { name := name
      email := email
      phone := phone
      attending := data.attending.truthy
      guests := data.guests.truthy
      guestName := guestName
      dietaryRestrictions :=
        { none := data.dietaryRestrictions.none.truthy
          vegetarian := data.dietaryRestrictions.vegetarian.truthy
          vegan := data.dietaryRestrictions.vegan.truthy
          glutenFree := data.dietaryRestrictions.glutenFree.truthy
          nutAllergy := data.dietaryRestrictions.nutAllergy.truthy
          shellfishAllergy := data.dietaryRestrictions.shellfishAllergy.truthy
          other := dOther }
      accommodations := data.accommodations.truthy
      accommodationsText := accommodationsText
      song := song
      message := message
      approved := data.approved.truthy
      createdAt := if data.createdAt.truthy then data.createdAt else JsVal.date now
      updatedAt := now }

/-- A stored MongoDB document: an association list of field name to value,
in insertion order (MongoDB documents are ordered). -/
abbrev BsonDoc : Type := List (String × JsVal)

/-- Read a field of a document (first occurrence, as MongoDB does). -/
def getDocField (d : BsonDoc) (k : String) : Option JsVal :=
  (List.find? (fun p => p.1 = k) d).map Prod.snd

/-- MongoDB `$set` of a single field: overwrite the field in place when
present (documents have unique keys), append it at the end otherwise. -/
def setDocField : BsonDoc → String → JsVal → BsonDoc
  | [], k, v => [(k, v)]
  | q :: rest, k, v => if q.1 = k then (k, v) :: rest else q :: setDocField rest k v

/-- MongoDB `$set` of a whole update document, field by field. -/
def applySet (d : BsonDoc) (u : BsonDoc) : BsonDoc :=
  List.foldl (fun acc p => setDocField acc p.1 p.2) d u

/-- The `rsvps` collection: documents keyed by their `_id` string.
MongoDB enforces uniqueness of `_id`; theorems that rely on it take a
`Nodup` hypothesis on the keys. -/
abbrev RsvpDb : Type := List (String × BsonDoc)

/-- `findOne({_id})`: the first document with the given id, if any. -/
def lookupDb (db : RsvpDb) (id : String) : Option BsonDoc :=
  (List.find? (fun p => p.1 = id) db).map Prod.snd

/-- Read one field of the record stored under an id. -/
def dbField (db : RsvpDb) (id : String) (k : String) : Option JsVal :=
  match lookupDb db id with
  | Option.none => Option.none
  | Option.some d => getDocField d k

/-- Validity check performed by `new ObjectId(id)`: a 24-character
hexadecimal string (the constructor throws `BSONError` otherwise). -/
def isValidObjectId (id : String) : Bool :=
  id.length = 24 && List.all id.data (fun c =>
    decide (('0' ≤ c ∧ c ≤ '9') ∨ ('a' ≤ c ∧ c ≤ 'f') ∨ ('A' ≤ c ∧ c ≤ 'F')))

/-- Translation of `getRsvpById` (src/services/rsvpService.js, lines
212-223): convert the id (throwing on a malformed one), `findOne`, return
the document or `null`. -/
def getRsvpById (db : RsvpDb) (id : String) : Except Unit (Option BsonDoc) :=
  if isValidObjectId id then Except.ok (lookupDb db id) else Except.error ()

/-- The document produced by `$set {...updateData, updatedAt: new Date()}`
on a stored document. -/
def postUpdateDoc (now : Nat) (d0 : BsonDoc) (u : BsonDoc) : BsonDoc :=
  setDocField (applySet d0 u) "updatedAt" (JsVal.date now)

/-- `findOneAndUpdate` with a `$set` update and `returnDocument: 'after'`:
updates the first document matching the id and returns the new database
together with the post-update document (`Option.none` when no match). -/
def findOneAndUpdateSet (now : Nat) (db : RsvpDb) (id : String) (u : BsonDoc) :
    RsvpDb × Option BsonDoc :=
  match db with
  | [] => ([], Option.none)
  | (i, d) :: rest =>
    if i = id then
      ((i, postUpdateDoc now d u) :: rest, Option.some (postUpdateDoc now d u))
    else
      let r := findOneAndUpdateSet now rest id u
      ((i, d) :: r.1, r.2)

/-- Translation of `updateRsvp` (src/services/rsvpService.js, lines
277-295): `findOneAndUpdate` by id with `$set {...updateData, updatedAt:
new Date()}`, returning the updated document or `null`. -/
def updateRsvp (now : Nat) (db : RsvpDb) (id : String) (updateData : BsonDoc) :
    Except Unit (RsvpDb × Option BsonDoc) :=
  if isValidObjectId id then Except.ok (findOneAndUpdateSet now db id updateData)
  else Except.error ()

/-- `deleteOne({_id})`: remove the first document with the id; the Bool is
`deletedCount > 0`. -/
def deleteFirst (db : RsvpDb) (id : String) : RsvpDb × Bool :=
  match db with
  | [] => ([], false)
  | (i, d) :: rest =>
    if i = id then (rest, true)
    else
      let r := deleteFirst rest id
      ((i, d) :: r.1, r.2)

/-- Translation of `deleteRsvp` (src/services/rsvpService.js, lines
317-328): delete by id and report whether a document was removed. -/
def deleteRsvp (db : RsvpDb) (id : String) : Except Unit (RsvpDb × Bool) :=
  if isValidObjectId id then Except.ok (deleteFirst db id) else Except.error ()

/-- Shape of the aggregation result of `getRsvpStats`. -/
structure RsvpStats where
  total : Int
  attending : Int
  notAttending : Int
  totalGuests : Int
deriving DecidableEq, Repr

/-- Truthiness of a field reference in a MongoDB `$cond`: a missing field
and `null`, `false` and `0` are falsy; every other value (including the
empty string, unlike JavaScript) is truthy. -/
def aggCondTruthy (v : Option JsVal) : Bool :=
  match v with
  | Option.none => false
  | Option.some JsVal.undef => false
  | Option.some JsVal.null => false
  | Option.some (JsVal.bool b) => b
  | Option.some (JsVal.num n) => n != 0
  | Option.some (JsVal.str _) => true
  | Option.some (JsVal.date _) => true
  | Option.some (JsVal.dietary _) => true

/-- Contribution of a value to a `$sum`: `$sum` ignores missing and
non-numeric values, adding `0` for them. -/
def aggNumOrZero (v : Option JsVal) : Int :=
  match v with
  | Option.some (JsVal.num n) => n
  | _ => 0

/-- One step of the `$group` accumulator of `getRsvpStats`. -/
def statsStep (acc : RsvpStats) (p : String × BsonDoc) : RsvpStats :=
  let att := aggCondTruthy (getDocField p.2 "attending")
  { total := acc.total + 1
    attending := acc.attending + (if att then 1 else 0)
    notAttending := acc.notAttending + (if att then 0 else 1)
    totalGuests :=
      acc.totalGuests + (if att then aggNumOrZero (getDocField p.2 "numberOfGuests") else 0) }

/-- Translation of `getRsvpStats` (src/services/rsvpService.js, lines
362-392): one aggregation pass over the whole collection; on an empty
collection the pipeline produces no group and the code falls back to the
explicit all-zero object. -/
def getRsvpStats (db : RsvpDb) : RsvpStats :=
  match db with
  | [] => { total := 0, attending := 0, notAttending := 0, totalGuests := 0 }
  | _ =>
    List.foldl statsStep
      { total := 0, attending := 0, notAttending := 0, totalGuests := 0 } db

/-- The document written to the collection for a normalized record: the
fields of `createRsvpObject` output in their source order (the service's
`createRsvp` then overwrites `createdAt`/`updatedAt` with fresh dates,
which changes values but not the key set). -/
def rsvpToDoc (r : Rsvp) : BsonDoc :=
  [("name", JsVal.str r.name),
   ("email", JsVal.str r.email),
   ("phone", JsVal.str r.phone),
   ("attending", JsVal.bool r.attending),
   ("guests", JsVal.bool r.guests),
   ("guestName", JsVal.str r.guestName),
   ("dietaryRestrictions", JsVal.dietary r.dietaryRestrictions),
   ("accommodations", JsVal.bool r.accommodations),
   ("accommodationsText", JsVal.str r.accommodationsText),
   ("song", JsVal.str r.song),
   ("message", JsVal.str r.message),
   ("approved", JsVal.bool r.approved),
   ("createdAt", r.createdAt),
   ("updatedAt", JsVal.date r.updatedAt)]

/-- A normalized record viewed again as raw input (e.g. a stored record
round-tripped through JSON and resubmitted): every text field is a string
value, every flag a boolean value. -/
def rsvpToInput (r : Rsvp) : RsvpInput :=
  { name := JsVal.str r.name
    email := JsVal.str r.email
    phone := JsVal.str r.phone
    attending := JsVal.bool r.attending
    guests := JsVal.bool r.guests
    guestName := JsVal.str r.guestName
    dietaryRestrictions :=
      { none := JsVal.bool r.dietaryRestrictions.none
        vegetarian := JsVal.bool r.dietaryRestrictions.vegetarian
        vegan := JsVal.bool r.dietaryRestrictions.vegan
        glutenFree := JsVal.bool r.dietaryRestrictions.glutenFree
        nutAllergy := JsVal.bool r.dietaryRestrictions.nutAllergy
        shellfishAllergy := JsVal.bool r.dietaryRestrictions.shellfishAllergy
        other := JsVal.str r.dietaryRestrictions.other
        extra := [] }
    accommodations := JsVal.bool r.accommodations
    accommodationsText := JsVal.str r.accommodationsText
    song := JsVal.str r.song
    message := JsVal.str r.message
    approved := JsVal.bool r.approved
    createdAt := r.createdAt
    extra := [] }

/-- JSON envelope sent by the API routes (status code, `success` flag,
`error` message when present, and the record payload when present). -/
structure ApiResponse where
  status : Nat
  success : Bool
  error : Option String
  payload : Option BsonDoc
deriving DecidableEq, Repr

/-- HTTP methods dispatched by the `[id].js` handler. -/
inductive HttpMethod where
  | GET
  | PUT
  | DELETE
  | POST
deriving DecidableEq, Repr

/-- Body of a PUT `/api/rsvps/{id}` request. `handlePut` destructures only
the seven fields `guestName`, `email`, `attending`, `numberOfGuests`,
`dietaryRestrictions`, `comments`, `approved`; the remaining named fields
and `extra` model everything else a client might send. -/
structure PutBody where
  guestName : JsVal
  email : JsVal
  attending : JsVal
  numberOfGuests : JsVal
  dietaryRestrictions : JsVal
  comments : JsVal
  approved : JsVal
  name : JsVal
  phone : JsVal
  song : JsVal
  message : JsVal
  accommodations : JsVal
  accommodationsText : JsVal
  extra : List (String × JsVal)
deriving DecidableEq, Repr

/-- Evaluation of a bare `v.trim()` (no optional chaining, as in
`handlePut`): strings are trimmed, anything else throws. -/
def jsDotTrim : JsVal → Except Unit String
  | JsVal.str s => Except.ok (jsTrim s)
  | _ => Except.error ()

/-- The early `400 Invalid email format` response of `handlePut`. -/
def respInvalidEmail : ApiResponse :=
  { status := 400, success := false, error := Option.some "Invalid email format",
    payload := Option.none }

/-- The `400 No fields to update` response of `handlePut`. -/
def respNoFields : ApiResponse :=
  { status := 400, success := false, error := Option.some "No fields to update",
    payload := Option.none }

/-- The `404 RSVP not found` response. -/
def respNotFound : ApiResponse :=
  { status := 404, success := false, error := Option.some "RSVP not found",
    payload := Option.none }

/-- The `400 Invalid RSVP ID format` response of the `[id].js` handler. -/
def respInvalidId : ApiResponse :=
  { status := 400, success := false, error := Option.some "Invalid RSVP ID format",
    payload := Option.none }

/-- The catch-all `500 Internal Server Error` response. -/
def respServerError : ApiResponse :=
  { status := 500, success := false, error := Option.some "Internal Server Error",
    payload := Option.none }

/-- The `405 Method Not Allowed` response. -/
def respMethodNotAllowed : ApiResponse :=
  { status := 405, success := false, error := Option.some "Method Not Allowed",
    payload := Option.none }

/-- Append an optional PUT field to the update object: skipped when the
body field is `undefined`, otherwise written through `f`. -/
def optField (u : BsonDoc) (v : JsVal) (k : String) (f : JsVal → JsVal) : BsonDoc :=
  if v = JsVal.undef then u else u ++ [(k, f v)]

/-- The `email` step of `handlePut`: when present, an invalid format is an
early `400`; a valid one is lower-cased, trimmed and added. -/
def emailStep (v : JsVal) (u : BsonDoc) : Except ApiResponse BsonDoc :=
  if v = JsVal.undef then Except.ok u
  else if emailTestVal v then
    Except.ok (u ++ [("email", JsVal.str (jsTrim (jsToLower v.asStr)))])
  else Except.error respInvalidEmail

/-- Steps of `handlePut` after the `guestName` one: email (early 400 on a
bad format), then the five remaining optional fields, then the
`No fields to update` check. -/
def buildPutTail (body : PutBody) (u0 : BsonDoc) : Except Unit (Except ApiResponse BsonDoc) :=
  match emailStep body.email u0 with
  | Except.error r => Except.ok (Except.error r)
  | Except.ok u1 =>
    let u2 := optField u1 body.attending "attending" (fun v => JsVal.bool v.truthy)
    let u3 := optField u2 body.numberOfGuests "numberOfGuests" (fun v => v)
    let u4 := optField u3 body.dietaryRestrictions "dietaryRestrictions" (fun v => v)
    let u5 := optField u4 body.comments "comments" (fun v => v)
    let u6 := optField u5 body.approved "approved" (fun v => JsVal.bool v.truthy)
    if u6.isEmpty then Except.ok (Except.error respNoFields)
    else Except.ok (Except.ok u6)

/-- Construction of `updateData` in `handlePut` (src/pages/api/rsvps/[id].js
lines 392-418): outer `Except Unit` is a thrown exception (`guestName.trim()`
on a non-string), inner `Except ApiResponse` is an early error response. -/
def buildPutUpdate (body : PutBody) : Except Unit (Except ApiResponse BsonDoc) := do
  let u : BsonDoc := []
  let u ← match body.guestName with
          | JsVal.undef => Except.ok u
          | v => do
              let s ← jsDotTrim v
              Except.ok (u ++ [("guestName", JsVal.str s)])
  buildPutTail body u

/-- Translation of `handlePut`: check existence (404), build the update
object (early 400s), then `updateRsvp` and answer 200 with the updated
record. A thrown exception propagates to the wrapper. -/
def handlePut (now : Nat) (db : RsvpDb) (id : String) (body : PutBody) :
    Except Unit (ApiResponse × RsvpDb) := do
  let existing ← getRsvpById db id
  match existing with
  | Option.none => Except.ok (respNotFound, db)
  | Option.some _ =>
    match (← buildPutUpdate body) with
    | Except.error r => Except.ok (r, db)
    | Except.ok u => do
      let res ← updateRsvp now db id u
      Except.ok
        ({ status := 200, success := true, error := Option.none, payload := res.2 }, res.1)

/-- Translation of `handleGet` in `[id].js`: fetch by id, 404 when
missing, 200 with the record otherwise. -/
def handleGetById (db : RsvpDb) (id : String) : Except Unit ApiResponse := do
  let rsvp ← getRsvpById db id
  match rsvp with
  | Option.none => Except.ok respNotFound
  | Option.some d =>
    Except.ok { status := 200, success := true, error := Option.none,
                payload := Option.some d }

/-- Translation of `handleDelete` in `[id].js`: delete by id, 404 when
nothing was removed, 200 otherwise. -/
def handleDelete (db : RsvpDb) (id : String) : Except Unit (ApiResponse × RsvpDb) := do
  let res ← deleteRsvp db id
  if res.2 then
    Except.ok ({ status := 200, success := true, error := Option.none,
                 payload := Option.none }, res.1)
  else Except.ok (respNotFound, res.1)

/-- Translation of the `[id].js` handler (src/pages/api/rsvps/index.js
lines 305-351 of the concatenated sources): the id-shape guard runs first
and rejects any id whose length is not 24 with a 400 before dispatching;
the try/catch turns a thrown exception into a 500. The third component
records whether a store operation was attempted. -/
def idRouteHandler (now : Nat) (db : RsvpDb) (method : HttpMethod) (id : String)
    (body : PutBody) : ApiResponse × RsvpDb × Bool :=
  if id.length ≠ 24 then (respInvalidId, db, false)
  else
    match method with
    | HttpMethod.GET =>
      match handleGetById db id with
      | Except.ok r => (r, db, true)
      | Except.error _ => (respServerError, db, true)
    | HttpMethod.PUT =>
      match handlePut now db id body with
      | Except.ok rd => (rd.1, rd.2, true)
      | Except.error _ => (respServerError, db, true)
    | HttpMethod.DELETE =>
      match handleDelete db id with
      | Except.ok rd => (rd.1, rd.2, true)
      | Except.error _ => (respServerError, db, true)
    | _ => (respMethodNotAllowed, db, false)

/-! ### String helper lemmas: `trim` and `toLowerCase` -/

theorem dropWhile_head_false {α : Type} (p : α → Bool) {l : List α} {c : α}
    (h : (l.dropWhile p).head? = Option.some c) : p c = false := by
  have hh := List.head?_dropWhile_not p l
  rw [h] at hh
  exact hh

theorem dropWhile_of_head_false {α : Type} (p : α → Bool) {l : List α}
    (h : ∀ c, l.head? = Option.some c → p c = false) : l.dropWhile p = l := by
  cases l with
  | nil => rfl
  | cons a t =>
    have ha : p a = false := h a rfl
    simp [List.dropWhile_cons, ha]

theorem dropWhile_idem {α : Type} (p : α → Bool) (l : List α) :
    (l.dropWhile p).dropWhile p = l.dropWhile p := by
  apply dropWhile_of_head_false
  intro c hc
  exact dropWhile_head_false p hc

theorem jsTrimList_idem (cs : List Char) : jsTrimList (jsTrimList cs) = jsTrimList cs := by
  unfold jsTrimList
  set p := Char.isWhitespace with hp
  set a := cs.dropWhile p with ha
  set b := a.reverse.dropWhile p with hb
  obtain ⟨t, ht⟩ : b <:+ a.reverse := by
    rw [hb]
    exact List.dropWhile_suffix p
  have hsplit : a = b.reverse ++ t.reverse := by
    have h2 := congrArg List.reverse ht
    simp only [List.reverse_append, List.reverse_reverse] at h2
    exact h2.symm
  have hstep1 : (b.reverse).dropWhile p = b.reverse := by
    apply dropWhile_of_head_false
    intro c hc
    have hac : a.head? = Option.some c := by
      rw [hsplit, List.head?_append, hc]
      rfl
    rw [ha] at hac
    exact dropWhile_head_false p hac
  have hstep2 : b.dropWhile p = b := by
    rw [hb]
    exact dropWhile_idem p _
  rw [hstep1, List.reverse_reverse, hstep2]

theorem string_data_mk (l : List Char) : (String.mk l).data = l := rfl

theorem jsTrim_idem (s : String) : jsTrim (jsTrim s) = jsTrim s := by
  unfold jsTrim
  rw [string_data_mk, jsTrimList_idem]

theorem char_toNat_inj {a b : Char} (h : a.toNat = b.toNat) : a = b := by
  apply Char.ext
  exact UInt32.toNat.inj h

theorem char_toNat_ofNat_valid {n : Nat} (h : n < 55296) : (Char.ofNat n).toNat = n := by
  rw [Char.ofNat, dif_pos (Or.inl h : Nat.isValidChar n)]
  rfl

theorem toLower_eq (c : Char) :
    Char.toLower c = if c.toNat ≥ 65 ∧ c.toNat ≤ 90 then Char.ofNat (c.toNat + 32) else c := rfl

theorem char_toLower_toLower (c : Char) : Char.toLower (Char.toLower c) = Char.toLower c := by
  by_cases h : c.toNat ≥ 65 ∧ c.toNat ≤ 90
  · have h1 : Char.toLower c = Char.ofNat (c.toNat + 32) := by rw [toLower_eq, if_pos h]
    have ht : (Char.ofNat (c.toNat + 32)).toNat = c.toNat + 32 :=
      char_toNat_ofNat_valid (by omega)
    rw [h1, toLower_eq, ht, if_neg (by omega)]
  · have h1 : Char.toLower c = c := by rw [toLower_eq, if_neg h]
    rw [h1, h1]

theorem char_isWhitespace_iff (c : Char) :
    c.isWhitespace = true ↔ (c.toNat = 32 ∨ c.toNat = 9 ∨ c.toNat = 13 ∨ c.toNat = 10) := by
  unfold Char.isWhitespace
  simp only [Bool.or_eq_true, decide_eq_true_eq]
  constructor
  · rintro (((rfl | rfl) | rfl) | rfl) <;> simp
  · rintro (h | h | h | h)
    · exact Or.inl (Or.inl (Or.inl (char_toNat_inj h)))
    · exact Or.inl (Or.inl (Or.inr (char_toNat_inj h)))
    · exact Or.inl (Or.inr (char_toNat_inj h))
    · exact Or.inr (char_toNat_inj h)

theorem char_isWhitespace_toLower (c : Char) :
    (Char.toLower c).isWhitespace = c.isWhitespace := by
  by_cases h : c.toNat ≥ 65 ∧ c.toNat ≤ 90
  · have h1 : Char.toLower c = Char.ofNat (c.toNat + 32) := by rw [toLower_eq, if_pos h]
    have ht : (Char.ofNat (c.toNat + 32)).toNat = c.toNat + 32 :=
      char_toNat_ofNat_valid (by omega)
    have h2 : (Char.toLower c).isWhitespace = false := by
      rw [h1]
      by_contra hw
      have hb : (Char.ofNat (c.toNat + 32)).isWhitespace = true := by simpa using hw
      have := (char_isWhitespace_iff _).mp hb
      rw [ht] at this
      omega
    have h3 : c.isWhitespace = false := by
      by_contra hw
      have hb : c.isWhitespace = true := by simpa using hw
      have := (char_isWhitespace_iff c).mp hb
      omega
    rw [h2, h3]
  · have h1 : Char.toLower c = c := by rw [toLower_eq, if_neg h]
    rw [h1]

theorem jsToLower_comp_whitespace :
    (Char.isWhitespace ∘ Char.toLower) = Char.isWhitespace := by
  funext c
  exact char_isWhitespace_toLower c

theorem jsToLower_jsTrim (s : String) : jsToLower (jsTrim s) = jsTrim (jsToLower s) := by
  unfold jsToLower jsTrim jsTrimList
  rw [string_data_mk, string_data_mk]
  congr 1
  rw [List.dropWhile_map, jsToLower_comp_whitespace, ← List.map_reverse,
    List.dropWhile_map, jsToLower_comp_whitespace, ← List.map_reverse]

theorem jsToLower_idem (s : String) : jsToLower (jsToLower s) = jsToLower s := by
  unfold jsToLower
  rw [string_data_mk]
  congr 1
  rw [List.map_map]
  exact List.map_congr_left (fun c _ => char_toLower_toLower c)

/-! ### C1: the validator accumulates every applicable error, in order -/

/-- Error segment the spec assigns to the `name` check. -/
def specNameErrors (d : RsvpInput) : List String :=
  if requiredTextMissing d.name then ["Name is required"] else []

/-- Error segment the spec assigns to the `email` checks (required first,
format only when present). -/
def specEmailErrors (d : RsvpInput) : List String :=
  if requiredTextMissing d.email then ["Email is required"]
  else if !emailRegexTest d.email.asStr then ["Invalid email format"]
  else []

/-- Error segment the spec assigns to the `phone` check. -/
def specPhoneErrors (d : RsvpInput) : List String :=
  if requiredTextMissing d.phone then ["Phone is required"] else []

/-- Error segment the spec assigns to the `attending` type check. -/
def specAttendingErrors (d : RsvpInput) : List String :=
  if !d.attending.isBool then ["Attending status is required"] else []

/-- Error segment the spec assigns to the `guests` type check. -/
def specGuestsErrors (d : RsvpInput) : List String :=
  if !d.guests.isBool then ["Guests status is required"] else []

/-- Error segment the spec assigns to the `accommodations` type check. -/
def specAccommodationsErrors (d : RsvpInput) : List String :=
  if !d.accommodations.isBool then ["Accommodations status is required"] else []

/-- Error segment the spec assigns to the conditional `guestName` check. -/
def specGuestNameErrors (d : RsvpInput) : List String :=
  if d.guests = JsVal.bool true then
    if requiredTextMissing d.guestName then
      ["Guest name is required when bringing guests"]
    else []
  else []

/-- Error segment the spec assigns to the conditional `accommodationsText`
check. -/
def specAccTextErrors (d : RsvpInput) : List String :=
  if d.accommodations = JsVal.bool true then
    if requiredTextMissing d.accommodationsText then
      ["Accommodation details are required when accommodations are needed"]
    else []
  else []

/-- The full error list as the spec describes it: the concatenation of the
eight independent segments, in the specified order. -/
def specErrors (d : RsvpInput) : List String :=
  specNameErrors d ++ specEmailErrors d ++ specPhoneErrors d ++ specAttendingErrors d ++
    specGuestsErrors d ++ specAccommodationsErrors d ++ specGuestNameErrors d ++
    specAccTextErrors d

theorem if_push_append_list (c : Prop) [Decidable c] (xs ys : List String) :
    (if c then xs ++ ys else xs) = xs ++ (if c then ys else []) := by
  split <;> simp

theorem if_push_append_branch (c : Prop) [Decidable c] (xs zs : List String) (m : String) :
    (if c then xs ++ [m] else xs ++ zs) = xs ++ (if c then [m] else zs) := by
  split <;> simp

/-- C1: `validateRsvp` accumulates ALL applicable error messages without
short-circuiting, in the specified order — its error list is exactly the
concatenation of the eight independent per-check segments (name, email
required/format, phone, the three strict-boolean checks, and the two
conditional checks), and the result is valid iff that list is empty, so
independently failing checks all appear together in one call. -/
theorem validateRsvp_accumulates_all_errors (d : RsvpInput) :
    (validateRsvp d).errors = specErrors d
    ∧ ((validateRsvp d).isValid = true ↔ (validateRsvp d).errors = []) := by
  constructor
  · simp only [validateRsvp, specErrors, specNameErrors, specEmailErrors, specPhoneErrors,
      specAttendingErrors, specGuestsErrors, specAccommodationsErrors, specGuestNameErrors,
      specAccTextErrors]
    simp only [if_push_append_list, if_push_append_branch]
    simp [if_push_append_list, if_push_append_branch, List.append_assoc]
  · simp only [validateRsvp]
    exact List.isEmpty_iff

/-! ### C2, C7, C9: normalization -/

theorem except_ok_bind {α β : Type} (a : α) (f : α → Except Unit β) :
    (Except.ok a : Except Unit α) >>= f = f a := rfl

theorem except_error_bind {α β : Type} (f : α → Except Unit β) :
    (Except.error () : Except Unit α) >>= f = Except.error () := rfl

theorem createRsvpObject_ok_elim (now : Nat) (d : RsvpInput) (r : Rsvp)
    (h : createRsvpObject now d = Except.ok r) :
    optChainTrim d.name = Except.ok r.name
    ∧ optChainLowerTrim d.email = Except.ok r.email
    ∧ optChainTrim d.phone = Except.ok r.phone
    ∧ optChainTrim d.guestName = Except.ok r.guestName
    ∧ optChainTrim d.dietaryRestrictions.other = Except.ok r.dietaryRestrictions.other
    ∧ optChainTrim d.accommodationsText = Except.ok r.accommodationsText
    ∧ optChainTrim d.song = Except.ok r.song
    ∧ optChainTrim d.message = Except.ok r.message
    ∧ r.attending = d.attending.truthy
    ∧ r.guests = d.guests.truthy
    ∧ r.dietaryRestrictions.none = d.dietaryRestrictions.none.truthy
    ∧ r.dietaryRestrictions.vegetarian = d.dietaryRestrictions.vegetarian.truthy
    ∧ r.dietaryRestrictions.vegan = d.dietaryRestrictions.vegan.truthy
    ∧ r.dietaryRestrictions.glutenFree = d.dietaryRestrictions.glutenFree.truthy
    ∧ r.dietaryRestrictions.nutAllergy = d.dietaryRestrictions.nutAllergy.truthy
    ∧ r.dietaryRestrictions.shellfishAllergy = d.dietaryRestrictions.shellfishAllergy.truthy
    ∧ r.accommodations = d.accommodations.truthy
    ∧ r.approved = d.approved.truthy
    ∧ r.createdAt = (if d.createdAt.truthy then d.createdAt else JsVal.date now)
    ∧ r.updatedAt = now := by
  rw [createRsvpObject] at h
  cases h1 : optChainTrim d.name with
  | error e => rw [h1, except_error_bind] at h; exact absurd h (by simp)
  | ok ns =>
  rw [h1, except_ok_bind] at h
  cases h2 : optChainLowerTrim d.email with
  | error e => rw [h2, except_error_bind] at h; exact absurd h (by simp)
  | ok es =>
  rw [h2, except_ok_bind] at h
  cases h3 : optChainTrim d.phone with
  | error e => rw [h3, except_error_bind] at h; exact absurd h (by simp)
  | ok ps =>
  rw [h3, except_ok_bind] at h
  cases h4 : optChainTrim d.guestName with
  | error e => rw [h4, except_error_bind] at h; exact absurd h (by simp)
  | ok gs =>
  rw [h4, except_ok_bind] at h
  cases h5 : optChainTrim d.dietaryRestrictions.other with
  | error e => rw [h5, except_error_bind] at h; exact absurd h (by simp)
  | ok os =>
  rw [h5, except_ok_bind] at h
  cases h6 : optChainTrim d.accommodationsText with
  | error e => rw [h6, except_error_bind] at h; exact absurd h (by simp)
  | ok ac =>
  rw [h6, except_ok_bind] at h
  cases h7 : optChainTrim d.song with
  | error e => rw [h7, except_error_bind] at h; exact absurd h (by simp)
  | ok sg =>
  rw [h7, except_ok_bind] at h
  cases h8 : optChainTrim d.message with
  | error e => rw [h8, except_error_bind] at h; exact absurd h (by simp)
  | ok ms =>
  rw [h8, except_ok_bind] at h
  have hr := (Except.ok.injEq _ _).mp h
  subst hr
  simp

/-- The normalization contract for a plain text field: nullish input
becomes `""`, string input is trimmed. -/
def TextNormalized (v : JsVal) (out : String) : Prop :=
  ((v = JsVal.undef ∨ v = JsVal.null) → out = "")
  ∧ (∀ s, v = JsVal.str s → out = jsTrim s)

/-- The normalization contract for the email field: nullish input becomes
`""`, string input is lower-cased then trimmed. -/
def EmailNormalized (v : JsVal) (out : String) : Prop :=
  ((v = JsVal.undef ∨ v = JsVal.null) → out = "")
  ∧ (∀ s, v = JsVal.str s → out = jsTrim (jsToLower s))

theorem textNormalized_of_ok {v : JsVal} {out : String}
    (h : optChainTrim v = Except.ok out) : TextNormalized v out := by
  constructor
  · rintro (rfl | rfl) <;> (simp [optChainTrim] at h; exact h.symm)
  · rintro s rfl
    simp [optChainTrim] at h
    exact h.symm

theorem emailNormalized_of_ok {v : JsVal} {out : String}
    (h : optChainLowerTrim v = Except.ok out) : EmailNormalized v out := by
  constructor
  · rintro (rfl | rfl) <;> (simp [optChainLowerTrim] at h; exact h.symm)
  · rintro s rfl
    simp [optChainLowerTrim] at h
    exact h.symm

/-- C2: `createRsvpObject` tolerates missing/undefined fields and
normalizes: every free-text field is trimmed (email additionally
lower-cased) and defaults to `""` on nullish input; `attending`, `guests`,
`accommodations` and `approved` are coerced to booleans by truthiness; the
`dietaryRestrictions` sub-object is rebuilt with exactly the six boolean
flags plus `other` and is insensitive to unknown extra fields (as is the
whole record); `updatedAt` is always set to now; a truthy supplied
`createdAt` is preserved, otherwise `createdAt` is set to now. -/
theorem createRsvpObject_normalizes (now : Nat) (d : RsvpInput) (r : Rsvp)
    (h : createRsvpObject now d = Except.ok r) :
    TextNormalized d.name r.name
    ∧ EmailNormalized d.email r.email
    ∧ TextNormalized d.phone r.phone
    ∧ r.attending = d.attending.truthy
    ∧ r.guests = d.guests.truthy
    ∧ TextNormalized d.guestName r.guestName
    ∧ r.dietaryRestrictions.none = d.dietaryRestrictions.none.truthy
    ∧ r.dietaryRestrictions.vegetarian = d.dietaryRestrictions.vegetarian.truthy
    ∧ r.dietaryRestrictions.vegan = d.dietaryRestrictions.vegan.truthy
    ∧ r.dietaryRestrictions.glutenFree = d.dietaryRestrictions.glutenFree.truthy
    ∧ r.dietaryRestrictions.nutAllergy = d.dietaryRestrictions.nutAllergy.truthy
    ∧ r.dietaryRestrictions.shellfishAllergy = d.dietaryRestrictions.shellfishAllergy.truthy
    ∧ TextNormalized d.dietaryRestrictions.other r.dietaryRestrictions.other
    ∧ r.accommodations = d.accommodations.truthy
    ∧ TextNormalized d.accommodationsText r.accommodationsText
    ∧ TextNormalized d.song r.song
    ∧ TextNormalized d.message r.message
    ∧ r.approved = d.approved.truthy
    ∧ r.createdAt = (if d.createdAt.truthy then d.createdAt else JsVal.date now)
    ∧ r.updatedAt = now
    ∧ (∀ ex ex2, createRsvpObject now
        { d with extra := ex,
                 dietaryRestrictions := { d.dietaryRestrictions with extra := ex2 } }
          = Except.ok r) := by
  obtain ⟨e1, e2, e3, e4, e5, e6, e7, e8, hAtt, hGue, hD1, hD2, hD3, hD4, hD5, hD6,
    hAcc, hApp, hCre, hUpd⟩ := createRsvpObject_ok_elim now d r h
  refine ⟨textNormalized_of_ok e1, emailNormalized_of_ok e2, textNormalized_of_ok e3,
    hAtt, hGue, textNormalized_of_ok e4, hD1, hD2, hD3, hD4, hD5, hD6,
    textNormalized_of_ok e5, hAcc, textNormalized_of_ok e6, textNormalized_of_ok e7,
    textNormalized_of_ok e8, hApp, hCre, hUpd, ?_⟩
  intro ex ex2
  exact h

theorem jsTrim_of_optChainTrim_ok {v : JsVal} {out : String}
    (h : optChainTrim v = Except.ok out) : jsTrim out = out := by
  cases v <;> simp [optChainTrim] at h <;> rw [← h]
  · rfl
  · rfl
  · exact jsTrim_idem _

theorem email_shape_of_optChainLowerTrim_ok {v : JsVal} {out : String}
    (h : optChainLowerTrim v = Except.ok out) : jsTrim (jsToLower out) = out := by
  cases v <;> simp [optChainLowerTrim] at h <;> rw [← h]
  · rfl
  · rfl
  · rw [jsToLower_jsTrim, jsToLower_idem, jsTrim_idem]

/-- C7: normalization is idempotent up to the timestamp — feeding the
output of `createRsvpObject` back in yields the same record, except that
`updatedAt` always advances to the new "now". -/
theorem createRsvpObject_idempotent (now1 now2 : Nat) (d : RsvpInput) (r : Rsvp)
    (h : createRsvpObject now1 d = Except.ok r) :
    createRsvpObject now2 (rsvpToInput r) = Except.ok { r with updatedAt := now2 } := by
  obtain ⟨e1, e2, e3, e4, e5, e6, e7, e8, hAtt, hGue, hD1, hD2, hD3, hD4, hD5, hD6,
    hAcc, hApp, hCre, hUpd⟩ := createRsvpObject_ok_elim now1 d r h
  have t1 := jsTrim_of_optChainTrim_ok e1
  have t2 := email_shape_of_optChainLowerTrim_ok e2
  have t3 := jsTrim_of_optChainTrim_ok e3
  have t4 := jsTrim_of_optChainTrim_ok e4
  have t5 := jsTrim_of_optChainTrim_ok e5
  have t6 := jsTrim_of_optChainTrim_ok e6
  have t7 := jsTrim_of_optChainTrim_ok e7
  have t8 := jsTrim_of_optChainTrim_ok e8
  have hCreTruthy : r.createdAt.truthy = true := by
    rw [hCre]
    split
    · assumption
    · rfl
  simp only [createRsvpObject, rsvpToInput, optChainTrim, optChainLowerTrim,
    except_ok_bind]
  rw [t1, t2, t3, t4, t5, t6, t7, t8]
  simp only [JsVal.truthy] at hCreTruthy
  simp [JsVal.truthy, hCreTruthy]

/-- A value that is a string or nullish (absent/`undefined`/`null`): the
shapes that `v?.trim()` can handle without throwing. -/
def strOrNullish (v : JsVal) : Prop :=
  v = JsVal.undef ∨ v = JsVal.null ∨ ∃ s, v = JsVal.str s

theorem optChainTrim_ok_of_strOrNullish {v : JsVal} (h : strOrNullish v) :
    ∃ out, optChainTrim v = Except.ok out := by
  rcases h with rfl | rfl | ⟨s, rfl⟩ <;> exact ⟨_, rfl⟩

theorem optChainLowerTrim_ok_of_strOrNullish {v : JsVal} (h : strOrNullish v) :
    ∃ out, optChainLowerTrim v = Except.ok out := by
  rcases h with rfl | rfl | ⟨s, rfl⟩ <;> exact ⟨_, rfl⟩

/-- An input that passes validation but crashes normalization: every
validated field is fine, yet `song` is a number, which `validateRsvp`
never type-checks and on which `createRsvpObject` calls `.trim()`. -/
def c9Input : RsvpInput :=
  { name := JsVal.str "John Doe"
    email := JsVal.str "john@example.com"
    phone := JsVal.str "555-1234"
    attending := JsVal.bool true
    guests := JsVal.bool false
    guestName := JsVal.undef
    dietaryRestrictions :=
      { none := JsVal.undef, vegetarian := JsVal.undef, vegan := JsVal.undef,
        glutenFree := JsVal.undef, nutAllergy := JsVal.undef,
        shellfishAllergy := JsVal.undef, other := JsVal.undef, extra := [] }
    accommodations := JsVal.bool false
    accommodationsText := JsVal.undef
    song := JsVal.num 5
    message := JsVal.undef
    approved := JsVal.undef
    createdAt := JsVal.undef
    extra := [] }

/-- C9: `createRsvpObject` succeeds whenever each of the eight text fields
it trims is a string or nullish — but this precondition is NOT implied by
`validateRsvp` returning valid, because `song`, `message` and
`dietaryRestrictions.other` are never type-checked: `c9Input` passes
validation (with `song` a number) yet `createRsvpObject` throws on it. -/
theorem createRsvpObject_total_on_strings (now : Nat) :
    (∀ (d : RsvpInput), strOrNullish d.name → strOrNullish d.email →
      strOrNullish d.phone → strOrNullish d.guestName →
      strOrNullish d.dietaryRestrictions.other → strOrNullish d.accommodationsText →
      strOrNullish d.song → strOrNullish d.message →
      ∃ r, createRsvpObject now d = Except.ok r)
    ∧ (validateRsvp c9Input).isValid = true
    ∧ createRsvpObject now c9Input = Except.error () := by
  refine ⟨?_, by decide, rfl⟩
  intro d h1 h2 h3 h4 h5 h6 h7 h8
  obtain ⟨o1, e1⟩ := optChainTrim_ok_of_strOrNullish h1
  obtain ⟨o2, e2⟩ := optChainLowerTrim_ok_of_strOrNullish h2
  obtain ⟨o3, e3⟩ := optChainTrim_ok_of_strOrNullish h3
  obtain ⟨o4, e4⟩ := optChainTrim_ok_of_strOrNullish h4
  obtain ⟨o5, e5⟩ := optChainTrim_ok_of_strOrNullish h5
  obtain ⟨o6, e6⟩ := optChainTrim_ok_of_strOrNullish h6
  obtain ⟨o7, e7⟩ := optChainTrim_ok_of_strOrNullish h7
  obtain ⟨o8, e8⟩ := optChainTrim_ok_of_strOrNullish h8
  apply Exists.intro
  rw [createRsvpObject, e1, except_ok_bind, e2, except_ok_bind, e3, except_ok_bind,
    e4, except_ok_bind, e5, except_ok_bind, e6, except_ok_bind, e7, except_ok_bind,
    e8, except_ok_bind]


/-! ### Store lemmas -/

theorem getDocField_setDocField_self (d : BsonDoc) (k : String) (v : JsVal) :
    getDocField (setDocField d k v) k = Option.some v := by
  induction d with
  | nil => simp [setDocField, getDocField, List.find?]
  | cons q rest ih =>
    by_cases hq : q.1 = k
    · simp [setDocField, hq, getDocField, List.find?]
    · simp only [setDocField, if_neg hq]
      simp only [getDocField, List.find?] at ih ⊢
      simpa [hq] using ih

theorem getDocField_setDocField_ne (d : BsonDoc) (k k2 : String) (v : JsVal)
    (h : k2 ≠ k) : getDocField (setDocField d k v) k2 = getDocField d k2 := by
  have hk : ¬((k : String) = k2) := fun he => h he.symm
  induction d with
  | nil => simp [setDocField, getDocField, List.find?, hk]
  | cons q rest ih =>
    by_cases hq : q.1 = k
    · have hq2 : ¬(q.1 = k2) := by rw [hq]; exact hk
      simp [setDocField, hq, getDocField, List.find?, hk, hq2]
    · simp only [setDocField, if_neg hq]
      by_cases hq2 : q.1 = k2
      · simp [getDocField, List.find?, hq2]
      · simp only [getDocField, List.find?] at ih ⊢
        simpa [hq2] using ih

theorem getDocField_applySet_frame (u : BsonDoc) (d : BsonDoc) (k : String)
    (h : ∀ p ∈ u, p.1 ≠ k) :
    getDocField (applySet d u) k = getDocField d k := by
  induction u generalizing d with
  | nil => rfl
  | cons q rest ih =>
    have hq : q.1 ≠ k := h q (by simp)
    show getDocField (applySet (setDocField d q.1 q.2) rest) k = _
    rw [ih _ (fun p hp => h p (by simp [hp]))]
    exact getDocField_setDocField_ne _ _ _ _ (fun he => hq he.symm)

theorem postUpdateDoc_updatedAt (now : Nat) (d0 u : BsonDoc) :
    getDocField (postUpdateDoc now d0 u) "updatedAt" = Option.some (JsVal.date now) :=
  getDocField_setDocField_self _ _ _

theorem postUpdateDoc_frame (now : Nat) (d0 u : BsonDoc) (k : String)
    (hk : k ≠ "updatedAt") (hu : ∀ p ∈ u, p.1 ≠ k) :
    getDocField (postUpdateDoc now d0 u) k = getDocField d0 k := by
  unfold postUpdateDoc
  rw [getDocField_setDocField_ne _ _ _ _ hk]
  exact getDocField_applySet_frame u d0 k hu

theorem findOneAndUpdateSet_not_found (now : Nat) (db : RsvpDb) (id : String)
    (u : BsonDoc) (h : lookupDb db id = Option.none) :
    findOneAndUpdateSet now db id u = (db, Option.none) := by
  induction db with
  | nil => rfl
  | cons q rest ih =>
    obtain ⟨i, d⟩ := q
    by_cases hq : i = id
    · simp [lookupDb, List.find?, hq] at h
    · simp only [lookupDb, List.find?] at h ih
      simp only [hq] at h
      simp only [decide_False] at h
      simp only [findOneAndUpdateSet, if_neg hq]
      rw [ih (by simpa using h)]

theorem findOneAndUpdateSet_found (now : Nat) (db : RsvpDb) (id : String)
    (u : BsonDoc) (d0 : BsonDoc) (h : lookupDb db id = Option.some d0) :
    (findOneAndUpdateSet now db id u).2 = Option.some (postUpdateDoc now d0 u)
    ∧ lookupDb (findOneAndUpdateSet now db id u).1 id
        = Option.some (postUpdateDoc now d0 u)
    ∧ (∀ j, j ≠ id → lookupDb (findOneAndUpdateSet now db id u).1 j = lookupDb db j) := by
  induction db with
  | nil => simp [lookupDb] at h
  | cons q rest ih =>
    obtain ⟨i, d⟩ := q
    by_cases hq : i = id
    · subst hq
      have hd : d = d0 := by simpa [lookupDb, List.find?] using h
      subst hd
      simp only [findOneAndUpdateSet, if_pos rfl]
      refine ⟨rfl, by simp [lookupDb, List.find?], ?_⟩
      intro j hj
      have hij : ¬((i : String) = j) := fun he => hj he.symm
      simp [lookupDb, List.find?, hij]
    · have hh : lookupDb rest id = Option.some d0 := by
        simpa [lookupDb, List.find?, hq] using h
      have hrest := ih hh
      simp only [findOneAndUpdateSet, if_neg hq]
      refine ⟨hrest.1, ?_, ?_⟩
      · simpa [lookupDb, List.find?, hq] using hrest.2.1
      · intro j hj
        by_cases hij : i = j
        · simp [lookupDb, List.find?, hij]
        · have := hrest.2.2 j hj
          simpa [lookupDb, List.find?, hij] using this

/-- C4: `updateRsvp` merges only the fields present in `updateData` into
the stored record and always refreshes `updatedAt` to now, returning the
post-update record (or a not-found result when the id does not exist):
fields without an entry in `updateData` keep their stored value, other
records are untouched, and in particular `update(id, {approved: true})`
changes only `approved` and `updatedAt`. -/
theorem updateRsvp_merges_only_given_fields (now : Nat) (db : RsvpDb) (id : String)
    (u : BsonDoc) (hid : isValidObjectId id = true) :
    (lookupDb db id = Option.none →
      updateRsvp now db id u = Except.ok (db, Option.none))
    ∧ (∀ d0, lookupDb db id = Option.some d0 →
        updateRsvp now db id u
            = Except.ok ((findOneAndUpdateSet now db id u).1,
                Option.some (postUpdateDoc now d0 u))
        ∧ lookupDb (findOneAndUpdateSet now db id u).1 id
            = Option.some (postUpdateDoc now d0 u)
        ∧ getDocField (postUpdateDoc now d0 u) "updatedAt"
            = Option.some (JsVal.date now)
        ∧ (∀ k, k ≠ "updatedAt" → (∀ p ∈ u, p.1 ≠ k) →
            getDocField (postUpdateDoc now d0 u) k = getDocField d0 k)
        ∧ (∀ j, j ≠ id →
            lookupDb (findOneAndUpdateSet now db id u).1 j = lookupDb db j)
        ∧ (u = [("approved", JsVal.bool true)] →
            getDocField (postUpdateDoc now d0 u) "approved"
                = Option.some (JsVal.bool true)
            ∧ ∀ k, k ≠ "approved" → k ≠ "updatedAt" →
                getDocField (postUpdateDoc now d0 u) k = getDocField d0 k)) := by
  constructor
  · intro h
    rw [updateRsvp, if_pos hid, findOneAndUpdateSet_not_found now db id u h]
  · intro d0 h
    have hf := findOneAndUpdateSet_found now db id u d0 h
    refine ⟨?_, hf.2.1, postUpdateDoc_updatedAt now d0 u, ?_, hf.2.2, ?_⟩
    · rw [updateRsvp, if_pos hid]
      have : findOneAndUpdateSet now db id u
          = ((findOneAndUpdateSet now db id u).1, (findOneAndUpdateSet now db id u).2) := rfl
      rw [this, hf.1]
    · intro k hk hu
      exact postUpdateDoc_frame now d0 u k hk hu
    · intro hu
      subst hu
      constructor
      · show getDocField (setDocField (applySet d0 _) "updatedAt" (JsVal.date now))
            "approved" = _
        rw [getDocField_setDocField_ne _ _ _ _ (by decide)]
        show getDocField (setDocField d0 "approved" (JsVal.bool true)) "approved" = _
        exact getDocField_setDocField_self _ _ _
      · intro k hk1 hk2
        rw [postUpdateDoc_frame now d0 _ k hk2]
        intro p hp
        have hpv : p = ("approved", JsVal.bool true) := by simpa using hp
        rw [hpv]
        exact fun he => hk1 he.symm

theorem deleteFirst_not_found (db : RsvpDb) (id : String)
    (h : lookupDb db id = Option.none) : deleteFirst db id = (db, false) := by
  induction db with
  | nil => rfl
  | cons q rest ih =>
    obtain ⟨i, d⟩ := q
    by_cases hq : i = id
    · simp [lookupDb, List.find?, hq] at h
    · have hh : lookupDb rest id = Option.none := by
        simpa [lookupDb, List.find?, hq] using h
      simp only [deleteFirst, if_neg hq]
      rw [ih hh]

theorem deleteFirst_found (db : RsvpDb) (id : String) (d0 : BsonDoc)
    (hnd : List.Nodup (List.map Prod.fst db))
    (h : lookupDb db id = Option.some d0) :
    (deleteFirst db id).2 = true
    ∧ lookupDb (deleteFirst db id).1 id = Option.none
    ∧ (∀ j, j ≠ id → lookupDb (deleteFirst db id).1 j = lookupDb db j) := by
  induction db with
  | nil => simp [lookupDb] at h
  | cons q rest ih =>
    obtain ⟨i, d⟩ := q
    rw [List.map_cons, List.nodup_cons] at hnd
    by_cases hq : i = id
    · subst hq
      have hdel : deleteFirst ((i, d) :: rest) i = (rest, true) := by
        simp [deleteFirst]
      have hfn : List.find? (fun p => p.1 = i) rest = Option.none := by
        rw [List.find?_eq_none]
        intro x hx
        simp only [decide_eq_true_eq]
        intro hxk
        have hmem : x.1 ∈ List.map Prod.fst rest := List.mem_map_of_mem Prod.fst hx
        rw [hxk] at hmem
        exact hnd.1 hmem
      refine ⟨by rw [hdel], ?_, ?_⟩
      · rw [hdel]
        simp [lookupDb, hfn]
      · intro j hj
        rw [hdel]
        have hij : ¬((i : String) = j) := fun he => hj he.symm
        simp [lookupDb, List.find?, hij]
    · have hh : lookupDb rest id = Option.some d0 := by
        simpa [lookupDb, List.find?, hq] using h
      have hrest := ih hnd.2 hh
      simp only [deleteFirst, if_neg hq]
      refine ⟨hrest.1, ?_, ?_⟩
      · simpa [lookupDb, List.find?, hq] using hrest.2.1
      · intro j hj
        by_cases hij : i = j
        · simp [lookupDb, List.find?, hij]
        · have := hrest.2.2 j hj
          simpa [lookupDb, List.find?, hij] using this

/-- C5: `deleteRsvp` returns true iff a record with the id existed and was
removed — on an existing id it returns true and a subsequent `getRsvpById`
on the same id finds nothing (other records untouched), while on a
nonexistent id it returns false and leaves the collection unchanged. -/
theorem deleteRsvp_deletes_iff_exists (db : RsvpDb) (id : String)
    (hid : isValidObjectId id = true)
    (hnd : List.Nodup (List.map Prod.fst db)) :
    (∀ d0, lookupDb db id = Option.some d0 →
      deleteRsvp db id = Except.ok ((deleteFirst db id).1, true)
      ∧ getRsvpById (deleteFirst db id).1 id = Except.ok Option.none
      ∧ (∀ j, j ≠ id → lookupDb (deleteFirst db id).1 j = lookupDb db j))
    ∧ (lookupDb db id = Option.none → deleteRsvp db id = Except.ok (db, false)) := by
  constructor
  · intro d0 h
    have hf := deleteFirst_found db id d0 hnd h
    refine ⟨?_, ?_, hf.2.2⟩
    · rw [deleteRsvp, if_pos hid]
      have hp : deleteFirst db id = ((deleteFirst db id).1, (deleteFirst db id).2) := rfl
      rw [hp, hf.1]
    · rw [getRsvpById, if_pos hid, hf.2.1]
  · intro h
    rw [deleteRsvp, if_pos hid, deleteFirst_not_found db id h]

/-! ### Stats lemmas -/

theorem statsStep_foldl (db : RsvpDb) (acc : RsvpStats) :
    List.foldl statsStep acc db =
      { total := acc.total + db.length
        attending := acc.attending +
          (List.countP (fun p => aggCondTruthy (getDocField p.2 "attending")) db : Int)
        notAttending := acc.notAttending +
          (List.countP (fun p => !aggCondTruthy (getDocField p.2 "attending")) db : Int)
        totalGuests := acc.totalGuests +
          (List.map (fun p => if aggCondTruthy (getDocField p.2 "attending")
            then aggNumOrZero (getDocField p.2 "numberOfGuests") else 0) db).sum } := by
  induction db generalizing acc with
  | nil => simp
  | cons q rest ih =>
    rw [List.foldl_cons, ih]
    simp only [statsStep, List.length_cons, List.countP_cons, List.map_cons, List.sum_cons,
      RsvpStats.mk.injEq]
    by_cases hq : aggCondTruthy (getDocField q.2 "attending")
    · simp only [hq, if_true, Bool.not_true, List.countP_cons]
      refine ⟨by omega, ?_, ?_, by omega⟩ <;> simp <;> push_cast <;> omega
    · simp only [Bool.not_eq_true] at hq
      simp only [hq, Bool.not_false, List.countP_cons]
      refine ⟨by omega, ?_, ?_, by omega⟩ <;> simp <;> push_cast <;> omega

theorem getRsvpStats_eq (db : RsvpDb) :
    getRsvpStats db =
      { total := (db.length : Int)
        attending :=
          (List.countP (fun p => aggCondTruthy (getDocField p.2 "attending")) db : Int)
        notAttending :=
          (List.countP (fun p => !aggCondTruthy (getDocField p.2 "attending")) db : Int)
        totalGuests :=
          (List.map (fun p => if aggCondTruthy (getDocField p.2 "attending")
            then aggNumOrZero (getDocField p.2 "numberOfGuests") else 0) db).sum } := by
  cases db with
  | nil => simp [getRsvpStats]
  | cons q rest =>
    rw [show getRsvpStats (q :: rest)
        = List.foldl statsStep
            { total := 0, attending := 0, notAttending := 0, totalGuests := 0 }
            (q :: rest) from rfl,
      statsStep_foldl]
    simp

/-- C3: the aggregation of `getRsvpStats` sums a `numberOfGuests` field
conditioned on attendance, but no record produced by `createRsvpObject`
(whose stored shape is `rsvpToDoc`) contains a `numberOfGuests` field — the
schema's "bringing a guest" field is the boolean `guests` — so over every
collection consisting solely of such records, `totalGuests` is 0. -/
theorem stats_totalGuests_always_zero (db : RsvpDb)
    (h : ∀ p ∈ db, ∃ r : Rsvp, p.2 = rsvpToDoc r) :
    (∀ r : Rsvp, getDocField (rsvpToDoc r) "numberOfGuests" = Option.none)
    ∧ (getRsvpStats db).totalGuests = 0 := by
  have hnone : ∀ r : Rsvp, getDocField (rsvpToDoc r) "numberOfGuests" = Option.none := by
    intro r
    rfl
  refine ⟨hnone, ?_⟩
  rw [getRsvpStats_eq]
  apply List.sum_eq_zero
  intro x hx
  rw [List.mem_map] at hx
  obtain ⟨p, hp, hxe⟩ := hx
  obtain ⟨r, hr⟩ := h p hp
  rw [← hxe, hr, hnone r]
  split <;> rfl

/-- C6: `getRsvpStats` computes in one pass over the whole collection the
record count, the count of records whose `attending` is true, and the
count of records whose `attending` is false or absent (for schema-shaped
collections where `attending` is boolean when present); on an empty
collection it returns exactly the all-zero object rather than an
absent/null result. -/
theorem getRsvpStats_counts (db : RsvpDb)
    (hb : ∀ p ∈ db, getDocField p.2 "attending" = Option.none ∨
        ∃ b, getDocField p.2 "attending" = Option.some (JsVal.bool b)) :
    (getRsvpStats db).total = (db.length : Int)
    ∧ (getRsvpStats db).attending =
        (List.countP
          (fun p => getDocField p.2 "attending" == Option.some (JsVal.bool true)) db : Int)
    ∧ (getRsvpStats db).notAttending =
        (List.countP
          (fun p => !(getDocField p.2 "attending" == Option.some (JsVal.bool true))) db : Int)
    ∧ getRsvpStats ([] : RsvpDb)
        = { total := 0, attending := 0, notAttending := 0, totalGuests := 0 } := by
  have hpt : ∀ p ∈ db, aggCondTruthy (getDocField p.2 "attending")
      = (getDocField p.2 "attending" == Option.some (JsVal.bool true)) := by
    intro p hp
    rcases hb p hp with h | ⟨b, h⟩
    · rw [h]; rfl
    · rw [h]; cases b <;> rfl
  rw [getRsvpStats_eq]
  refine ⟨rfl, ?_, ?_, rfl⟩
  · show ((List.countP (fun p => aggCondTruthy (getDocField p.2 "attending")) db : Nat) : Int) = _
    rw [List.countP_congr (fun p hp => by rw [hpt p hp])]
  · show ((List.countP (fun p => !aggCondTruthy (getDocField p.2 "attending")) db : Nat) : Int) = _
    rw [List.countP_congr (fun p hp => by rw [hpt p hp])]

/-- C8: any request to the per-id route whose id is not exactly a
24-character string is rejected with HTTP 400 (`Invalid RSVP ID format`)
before any store operation is attempted — regardless of method or body,
the store is untouched and never consulted. -/
theorem idRoute_rejects_malformed_id (now : Nat) (db : RsvpDb) (method : HttpMethod)
    (id : String) (body : PutBody) (h : id.length ≠ 24) :
    idRouteHandler now db method id body = (respInvalidId, db, false) := by
  rw [idRouteHandler.eq_def, if_pos h]

/-! ### PUT handler lemmas -/

/-- The field names that `handlePut` is allowed to write (the seven
destructured body fields plus the refreshed timestamp). -/
def putWritableFields : List String :=
  ["guestName", "email", "attending", "numberOfGuests", "dietaryRestrictions",
   "comments", "approved", "updatedAt"]

theorem optField_mem {u : BsonDoc} {v : JsVal} {k : String} {f : JsVal → JsVal}
    {p : String × JsVal} (h : p ∈ optField u v k f) : p ∈ u ∨ p.1 = k := by
  unfold optField at h
  split at h
  · exact Or.inl h
  · rw [List.mem_append] at h
    rcases h with h | h
    · exact Or.inl h
    · right
      have : p = (k, f v) := by simpa using h
      rw [this]

theorem emailStep_ok_mem {v : JsVal} {u u2 : BsonDoc} {p : String × JsVal}
    (h : emailStep v u = Except.ok u2) (hp : p ∈ u2) : p ∈ u ∨ p.1 = "email" := by
  unfold emailStep at h
  split at h
  · cases h
    exact Or.inl hp
  · split at h
    · cases h
      rw [List.mem_append] at hp
      rcases hp with hp | hp
      · exact Or.inl hp
      · right
        have : p = ("email", JsVal.str (jsTrim (jsToLower v.asStr))) := by simpa using hp
        rw [this]
    · cases h


theorem buildPutTail_keys (body : PutBody) (u0 : BsonDoc) (u : BsonDoc)
    (hu0 : ∀ p ∈ u0, p.1 ∈ putWritableFields)
    (h : buildPutTail body u0 = Except.ok (Except.ok u)) :
    ∀ p ∈ u, p.1 ∈ putWritableFields := by
  cases he : emailStep body.email u0 with
  | error r => simp [buildPutTail, he] at h
  | ok u1 =>
    simp only [buildPutTail, he] at h
    split at h
    · simp at h
    · simp only [Except.ok.injEq] at h
      subst h
      intro p hp
      rcases optField_mem hp with h5 | h5
      · rcases optField_mem h5 with h4 | h4
        · rcases optField_mem h4 with h3 | h3
          · rcases optField_mem h3 with h2 | h2
            · rcases optField_mem h2 with h1 | h1
              · rcases emailStep_ok_mem he h1 with h0 | h0
                · exact hu0 p h0
                · simp [putWritableFields, h0]
              · simp [putWritableFields, h1]
            · simp [putWritableFields, h2]
          · simp [putWritableFields, h3]
        · simp [putWritableFields, h4]
      · simp [putWritableFields, h5]

theorem buildPutUpdate_keys (body : PutBody) (u : BsonDoc)
    (h : buildPutUpdate body = Except.ok (Except.ok u)) :
    ∀ p ∈ u, p.1 ∈ putWritableFields := by
  rw [buildPutUpdate] at h
  cases hg : body.guestName with
  | undef =>
    rw [hg] at h
    simp only [except_ok_bind] at h
    exact buildPutTail_keys body [] u (by simp) h
  | str s =>
    rw [hg] at h
    simp only [jsDotTrim, except_ok_bind] at h
    refine buildPutTail_keys body _ u ?_ h
    intro p hp
    have : p = ("guestName", JsVal.str (jsTrim s)) := by simpa using hp
    simp [this, putWritableFields]
  | null => rw [hg] at h; exact Except.noConfusion h
  | bool b => rw [hg] at h; exact Except.noConfusion h
  | num n => rw [hg] at h; exact Except.noConfusion h
  | date t => rw [hg] at h; exact Except.noConfusion h
  | dietary dd => rw [hg] at h; exact Except.noConfusion h

theorem isValidObjectId_length {id : String} (h : isValidObjectId id = true) :
    id.length = 24 := by
  rw [isValidObjectId, Bool.and_eq_true] at h
  simpa using h.1

theorem handlePut_frame (now : Nat) (db : RsvpDb) (id : String) (body : PutBody)
    (rd : ApiResponse × RsvpDb) (h : handlePut now db id body = Except.ok rd) :
    ∀ k, k ∉ putWritableFields → ∀ j, dbField rd.2 j k = dbField db j k := by
  rw [handlePut] at h
  cases hg : getRsvpById db id with
  | error e => rw [hg, except_error_bind] at h; exact Except.noConfusion h
  | ok ex =>
    rw [hg, except_ok_bind] at h
    have hid : isValidObjectId id = true := by
      by_contra hni
      rw [getRsvpById, if_neg hni] at hg
      exact Except.noConfusion hg
    rw [getRsvpById, if_pos hid] at hg
    have hex : lookupDb db id = ex := (Except.ok.injEq _ _).mp hg
    cases ex with
    | none =>
      have hrd : rd = (respNotFound, db) := ((Except.ok.injEq _ _).mp h).symm
      rw [hrd]
      intro k _ j
      rfl
    | some d0 =>
      cases hb : buildPutUpdate body with
      | error e => rw [hb, except_error_bind] at h; exact Except.noConfusion h
      | ok bu =>
        rw [hb, except_ok_bind] at h
        cases bu with
        | error r =>
          have hrd : rd = (r, db) := ((Except.ok.injEq _ _).mp h).symm
          rw [hrd]
          intro k _ j
          rfl
        | ok u =>
          simp only [updateRsvp, if_pos hid, except_ok_bind] at h
          have hrd := ((Except.ok.injEq _ _).mp h).symm
          rw [hrd]
          intro k hk j
          have hkeys := buildPutUpdate_keys body u hb
          have hf := findOneAndUpdateSet_found now db id u d0 hex
          by_cases hj : j = id
          · show dbField (findOneAndUpdateSet now db id u).1 j k = _
            rw [hj, dbField, hf.2.1, dbField, hex]
            exact postUpdateDoc_frame now d0 u k
              (fun he => hk (he ▸ (by simp [putWritableFields])))
              (fun p hp he => hk (he ▸ hkeys p hp))
          · show dbField (findOneAndUpdateSet now db id u).1 j k = _
            rw [dbField, hf.2.2 j hj, dbField]

/-- C10: the PUT handler only ever writes fields from the fixed set
`guestName, email, attending, numberOfGuests, dietaryRestrictions,
comments, approved` plus the refreshed `updatedAt` (every other stored
field of every record is left with its prior value, whatever the body);
every other body field — `name`, `phone`, `song`, `message`,
`accommodations`, `accommodationsText` and unknown extras — is silently
ignored; and a body containing none of the seven fields is rejected with
HTTP 400 `No fields to update`, leaving the store unchanged. -/
theorem handlePut_writes_only_fixed_fields :
    (∀ (now : Nat) (db : RsvpDb) (id : String) (body : PutBody) (k : String),
      k ∉ putWritableFields → ∀ j,
        dbField (idRouteHandler now db HttpMethod.PUT id body).2.1 j k = dbField db j k)
    ∧ (∀ (now : Nat) (db : RsvpDb) (id : String) (body : PutBody) v1 v2 v3 v4 v5 v6 ex,
        idRouteHandler now db HttpMethod.PUT id
          { body with name := v1, phone := v2, song := v3, message := v4,
                      accommodations := v5, accommodationsText := v6, extra := ex }
          = idRouteHandler now db HttpMethod.PUT id body)
    ∧ (∀ (now : Nat) (db : RsvpDb) (id : String) (body : PutBody) (d0 : BsonDoc),
        isValidObjectId id = true → lookupDb db id = Option.some d0 →
        body.guestName = JsVal.undef → body.email = JsVal.undef →
        body.attending = JsVal.undef → body.numberOfGuests = JsVal.undef →
        body.dietaryRestrictions = JsVal.undef → body.comments = JsVal.undef →
        body.approved = JsVal.undef →
        idRouteHandler now db HttpMethod.PUT id body = (respNoFields, db, true)) := by
  refine ⟨?_, ?_, ?_⟩
  · intro now db id body k hk j
    by_cases hlen : id.length ≠ 24
    · rw [idRoute_rejects_malformed_id now db HttpMethod.PUT id body hlen]
    · rw [idRouteHandler.eq_def, if_neg hlen]
      cases hp : handlePut now db id body with
      | ok rd =>
        simp only
        exact handlePut_frame now db id body rd hp k hk j
      | error e =>
        simp only
  · intro now db id body v1 v2 v3 v4 v5 v6 ex
    rfl
  · intro now db id body d0 hid hlk h1 h2 h3 h4 h5 h6 h7
    have hlen : ¬(id.length ≠ 24) := by
      rw [isValidObjectId_length hid]
      exact fun he => he rfl
    have hbp : buildPutUpdate body = Except.ok (Except.error respNoFields) := by
      rw [buildPutUpdate, h1, except_ok_bind]
      simp [buildPutTail, emailStep, h2, optField, h3, h4, h5, h6, h7]
    have hhp : handlePut now db id body = Except.ok (respNoFields, db) := by
      rw [handlePut, getRsvpById, if_pos hid, hlk, except_ok_bind]
      simp only [hbp, except_ok_bind]
    rw [idRouteHandler.eq_def, if_neg hlen]
    simp only [hhp]

/-! ### Concrete fixtures for witnesses -/

/-- A concrete raw submission used to instantiate the theorems. -/
def exInput : RsvpInput :=
  { name := JsVal.str "  John Doe  "
    email := JsVal.str "JOHN@Example.COM"
    phone := JsVal.str "555-1234"
    attending := JsVal.bool true
    guests := JsVal.bool true
    guestName := JsVal.str "Sam"
    dietaryRestrictions :=
      { none := JsVal.bool true, vegetarian := JsVal.undef, vegan := JsVal.undef,
        glutenFree := JsVal.undef, nutAllergy := JsVal.undef,
        shellfishAllergy := JsVal.undef, other := JsVal.str " peanuts ", extra := [] }
    accommodations := JsVal.bool false
    accommodationsText := JsVal.undef
    song := JsVal.undef
    message := JsVal.undef
    approved := JsVal.undef
    createdAt := JsVal.undef
    extra := [] }

/-- The normalized record `createRsvpObject 7 exInput` produces. -/
def exOutput : Rsvp :=
  { name := "John Doe"
    email := "john@example.com"
    phone := "555-1234"
    attending := true
    guests := true
    guestName := "Sam"
    dietaryRestrictions :=
      { none := true, vegetarian := false, vegan := false, glutenFree := false,
        nutAllergy := false, shellfishAllergy := false, other := "peanuts" }
    accommodations := false
    accommodationsText := ""
    song := ""
    message := ""
    approved := false
    createdAt := JsVal.date 7
    updatedAt := 7 }

/-- A stored record used to populate test collections. -/
def exRsvp : Rsvp :=
  { name := "Amy"
    email := "amy@example.com"
    phone := "555"
    attending := true
    guests := true
    guestName := "Bo"
    dietaryRestrictions :=
      { none := true, vegetarian := false, vegan := false, glutenFree := false,
        nutAllergy := false, shellfishAllergy := false, other := "" }
    accommodations := false
    accommodationsText := ""
    song := ""
    message := ""
    approved := false
    createdAt := JsVal.date 1
    updatedAt := 1 }

/-- A second stored record (attending). -/
def exRsvp2 : Rsvp :=
  { exRsvp with name := "Cal", email := "cal@example.com", guests := false, guestName := "" }

/-- A third stored record (not attending). -/
def exRsvp3 : Rsvp :=
  { exRsvp with
      name := "Dee"
      email := "dee@example.com"
      attending := false
      guests := false
      guestName := "" }

/-- A valid 24-character hexadecimal record id. -/
def exId : String := "507f1f77bcf86cd799439011"

/-- A second valid 24-character hexadecimal record id. -/
def exId2 : String := "507f191e810c19729de860ea"

/-- A third valid 24-character hexadecimal record id. -/
def exId3 : String := "65a1b2c3d4e5f60718293a4b"

/-- A one-record collection. -/
def exDb : RsvpDb := [(exId, rsvpToDoc exRsvp)]

/-- The three-record collection of the spec example: `attending` is
`[true, true, false]` and the first attending record has `guests = true`. -/
def exDb3 : RsvpDb :=
  [(exId, rsvpToDoc exRsvp), (exId2, rsvpToDoc exRsvp2), (exId3, rsvpToDoc exRsvp3)]

/-- A PUT body carrying no fields at all. -/
def undefPutBody : PutBody :=
  { guestName := JsVal.undef, email := JsVal.undef, attending := JsVal.undef,
    numberOfGuests := JsVal.undef, dietaryRestrictions := JsVal.undef,
    comments := JsVal.undef, approved := JsVal.undef, name := JsVal.undef,
    phone := JsVal.undef, song := JsVal.undef, message := JsVal.undef,
    accommodations := JsVal.undef, accommodationsText := JsVal.undef, extra := [] }

/-- An all-absent submission body. -/
def emptyInput : RsvpInput :=
  { name := JsVal.undef, email := JsVal.undef, phone := JsVal.undef,
    attending := JsVal.undef, guests := JsVal.undef, guestName := JsVal.undef,
    dietaryRestrictions :=
      { none := JsVal.undef, vegetarian := JsVal.undef, vegan := JsVal.undef,
        glutenFree := JsVal.undef, nutAllergy := JsVal.undef,
        shellfishAllergy := JsVal.undef, other := JsVal.undef, extra := [] }
    accommodations := JsVal.undef, accommodationsText := JsVal.undef,
    song := JsVal.undef, message := JsVal.undef, approved := JsVal.undef,
    createdAt := JsVal.undef, extra := [] }

/-! ### Witnesses -/

/-- Witness for C2 at a concrete input. -/
theorem createRsvpObject_normalizes_witness :
    createRsvpObject 7 exInput = Except.ok exOutput
    ∧ TextNormalized exInput.name exOutput.name :=
  ⟨rfl, (createRsvpObject_normalizes 7 exInput exOutput rfl).1⟩

/-- Witness for C3 on a concrete one-record collection. -/
theorem stats_totalGuests_always_zero_witness :
    (∀ p ∈ exDb, ∃ r : Rsvp, p.2 = rsvpToDoc r)
    ∧ (getRsvpStats exDb).totalGuests = 0 := by
  have h : ∀ p ∈ exDb, ∃ r : Rsvp, p.2 = rsvpToDoc r := by
    intro p hp
    simp only [exDb, List.mem_singleton] at hp
    exact ⟨exRsvp, by rw [hp]⟩
  exact ⟨h, (stats_totalGuests_always_zero exDb h).2⟩

/-- Witness for C4: approving the stored record. -/
theorem updateRsvp_merges_only_given_fields_witness :
    isValidObjectId exId = true
    ∧ updateRsvp 9 exDb exId [("approved", JsVal.bool true)]
        = Except.ok ((findOneAndUpdateSet 9 exDb exId [("approved", JsVal.bool true)]).1,
            Option.some (postUpdateDoc 9 (rsvpToDoc exRsvp) [("approved", JsVal.bool true)])) :=
  ⟨by decide,
    ((updateRsvp_merges_only_given_fields 9 exDb exId [("approved", JsVal.bool true)]
      (by decide)).2 (rsvpToDoc exRsvp) (by decide)).1⟩

/-- Witness for C5: deleting the stored record. -/
theorem deleteRsvp_deletes_iff_exists_witness :
    isValidObjectId exId = true
    ∧ List.Nodup (List.map Prod.fst exDb)
    ∧ deleteRsvp exDb exId = Except.ok ((deleteFirst exDb exId).1, true) :=
  ⟨by decide, by decide,
    (((deleteRsvp_deletes_iff_exists exDb exId (by decide) (by decide)).1
      (rsvpToDoc exRsvp) (by decide)).1)⟩

/-- Witness for C6 on the spec example collection. -/
theorem getRsvpStats_counts_witness :
    (getRsvpStats exDb3).total = 3
    ∧ (getRsvpStats exDb3).attending = 2
    ∧ (getRsvpStats exDb3).notAttending = 1 := by
  have h : ∀ p ∈ exDb3, getDocField p.2 "attending" = Option.none ∨
      ∃ b, getDocField p.2 "attending" = Option.some (JsVal.bool b) := by
    intro p hp
    simp only [exDb3, List.mem_cons, List.not_mem_nil, or_false] at hp
    rcases hp with rfl | rfl | rfl
    · exact Or.inr ⟨true, rfl⟩
    · exact Or.inr ⟨true, rfl⟩
    · exact Or.inr ⟨false, rfl⟩
  have hc := getRsvpStats_counts exDb3 h
  exact ⟨hc.1.trans (by decide), hc.2.1.trans (by decide), hc.2.2.1.trans (by decide)⟩

/-- Witness for C7: re-normalizing a concrete normalized record. -/
theorem createRsvpObject_idempotent_witness :
    createRsvpObject 7 exInput = Except.ok exOutput
    ∧ createRsvpObject 9 (rsvpToInput exOutput)
        = Except.ok { exOutput with updatedAt := 9 } :=
  ⟨rfl, createRsvpObject_idempotent 7 9 exInput exOutput rfl⟩

/-- Witness for C8: a three-character id is rejected. -/
theorem idRoute_rejects_malformed_id_witness :
    ("abc" : String).length ≠ 24
    ∧ idRouteHandler 0 exDb HttpMethod.GET "abc" undefPutBody
        = (respInvalidId, exDb, false) :=
  ⟨by decide, idRoute_rejects_malformed_id 0 exDb HttpMethod.GET "abc" undefPutBody (by decide)⟩

/-- Witness for C9: the all-absent body normalizes without failing. -/
theorem createRsvpObject_total_on_strings_witness :
    strOrNullish emptyInput.name
    ∧ ∃ r, createRsvpObject 3 emptyInput = Except.ok r :=
  ⟨Or.inl rfl,
    (createRsvpObject_total_on_strings 3).1 emptyInput (Or.inl rfl) (Or.inl rfl)
      (Or.inl rfl) (Or.inl rfl) (Or.inl rfl) (Or.inl rfl) (Or.inl rfl) (Or.inl rfl)⟩

/-- Witness for C10: an empty update set on an existing record is a 400. -/
theorem handlePut_writes_only_fixed_fields_witness :
    isValidObjectId exId = true
    ∧ idRouteHandler 5 exDb HttpMethod.PUT exId undefPutBody
        = (respNoFields, exDb, true) :=
  ⟨by decide,
    handlePut_writes_only_fixed_fields.2.2 5 exDb exId undefPutBody (rsvpToDoc exRsvp)
      (by decide) (by decide) rfl rfl rfl rfl rfl rfl rfl⟩
